import Mathlib

/-!
Verification of the conversation-orchestration core of an MLBB coaching
service: session store (`app/utils/session_manager.py`), LLM provider
factory (`app/services/llm/provider.py`), and the LangGraph coaching
pipeline (`app/services/langgraph/coaching_graph.py`).

Python code is shallowly embedded: each Python function becomes a Lean
definition of the same name (module paths flattened), external
collaborators (LLM, vector store, Redis) become explicit function
parameters or small state models, and exceptions become `Except`.
-/

namespace MLBB

/-! ## Messages (`langchain_core.messages`)

The session code handles the three concrete message classes it ever
constructs or inspects: `HumanMessage`, `AIMessage`, `SystemMessage`. -/

inductive Msg where
  | human (content : String)
  | ai (content : String)
  | system (content : String)
deriving DecidableEq, Repr

/-- The Python class name stored by `_serialize_messages` (`msg.__class__.__name__`). -/
def Msg.typeName : Msg → String
  | .human _ => "HumanMessage"
  | .ai _ => "AIMessage"
  | .system _ => "SystemMessage"

def Msg.content : Msg → String
  | .human c => c
  | .ai c => c
  | .system c => c

/-- `m` is one of the two message classes `_deserialize_messages` reconstructs. -/
def keepMsg : Msg → Bool
  | .human _ => true
  | .ai _ => true
  | .system _ => false

/-! ## SessionManager (`app/utils/session_manager.py`) -/

/-- `SessionManager._serialize_messages`: each message becomes a
`{"type": class name, "content": content}` record. -/
def _serialize_messages (messages : List Msg) : List (String × String) :=
  messages.map fun m => (m.typeName, m.content)

/-- `SessionManager._deserialize_messages`: rebuilds `HumanMessage` and
`AIMessage` records and silently skips every other `type`. -/
def _deserialize_messages (messages_data : List (String × String)) : List Msg :=
  match messages_data with
  | [] => []
  | (msg_type, content) :: rest =>
    if msg_type = "HumanMessage" then Msg.human content :: _deserialize_messages rest
    else if msg_type = "AIMessage" then Msg.ai content :: _deserialize_messages rest
    else _deserialize_messages rest

/-- Model of the external Redis cache: a key maps to a stored value and an
absolute expiry instant (seconds). `SETEX key ttl v` stores `v` with expiry
`now + ttl`; `GET` returns the value only strictly before its expiry and
behaves as if the whole key were deleted afterwards. The JSON encoding of
the serialized message list is modelled as the identity on the structured
data (`json.loads (json.dumps x) = x`). -/
structure RedisStore where
  entries : String → Option (List (String × String) × Nat)

def RedisStore.empty : RedisStore := ⟨fun _ => none⟩

def redisSetex (r : RedisStore) (key : String) (value : List (String × String))
    (ttlSeconds now : Nat) : RedisStore :=
  ⟨fun k => if k = key then some (value, now + ttlSeconds) else r.entries k⟩

def redisGet (r : RedisStore) (key : String) (now : Nat) :
    Option (List (String × String)) :=
  match r.entries key with
  | some (v, expiry) => if now < expiry then some v else none
  | none => none

/-- State of a `SessionManager` instance: the `_use_redis` flag, the external
Redis store, and the `_memory_store` fallback dict. -/
structure SessionManager where
  use_redis : Bool
  redis : RedisStore
  memory : String → Option (List Msg)

/-- Settings default `MAX_CONVERSATION_HISTORY` (`app/core/config.py`). -/
def MAX_CONVERSATION_HISTORY : Nat := 10

/-- Default `ttl_hours` argument of `save_session`. -/
def DEFAULT_TTL_HOURS : Nat := 24

/-- `messages[-max_history:] if len(messages) > max_history else messages`. -/
def truncateHistory (max_history : Nat) (messages : List Msg) : List Msg :=
  if messages.length > max_history then messages.drop (messages.length - max_history)
  else messages

/-- `SessionManager.save_session`: truncates to the most recent
`max_history` messages, then `SETEX`es the serialized list under
`"session:" ++ id` with `ttl_hours` (Redis path returns without touching the
memory store), or stores the list in `_memory_store` on the fallback path.
`now` is the write instant in seconds. -/
def save_session (sm : SessionManager) (session_id : String) (messages : List Msg)
    (ttl_hours : Nat) (now : Nat) (max_history : Nat) : SessionManager :=
  let messages := truncateHistory max_history messages
  if sm.use_redis then
    let key := "session:" ++ session_id
    let data := _serialize_messages messages
    { sm with redis := redisSetex sm.redis key data (ttl_hours * 3600) now }
  else
    { sm with memory := fun k => if k = session_id then some messages else sm.memory k }

/-- `SessionManager.get_session`: reads Redis first when in use (deserializing
a hit), and falls back to the memory store (default `[]`). -/
def get_session (sm : SessionManager) (session_id : String) (now : Nat) : List Msg :=
  if sm.use_redis then
    match redisGet sm.redis ("session:" ++ session_id) now with
    | some data => _deserialize_messages data
    | none => (sm.memory session_id).getD []
  else (sm.memory session_id).getD []

/-! ## Python string methods

Kernel-reducible models of the Python `str` methods the embedded code
uses (`str.lower`, `str.strip`, `str.startswith`), over the character
list of a `String`; `lower` is modelled on the ASCII range, which covers
every string these functions are applied to. -/

/-- `str.lower` on one character (ASCII range). -/
def pyLowerChar (c : Char) : Char :=
  if 65 ≤ c.toNat ∧ c.toNat ≤ 90 then Char.ofNat (c.toNat + 32) else c

/-- `str.lower`. -/
def pyLower (s : String) : String := String.mk (s.data.map pyLowerChar)

/-- The whitespace class removed by `str.strip()`. -/
def isPySpace (c : Char) : Bool := c = ' ' ∨ c = '\t' ∨ c = '\n' ∨ c = '\r'

/-- `str.strip()`: removes leading and trailing whitespace. -/
def pyStrip (s : String) : String :=
  String.mk (((s.data.dropWhile isPySpace).reverse.dropWhile isPySpace).reverse)

/-- `s.startswith(p)`. -/
def pyStarts (s p : String) : Bool := p.data.isPrefixOf s.data

/-! ## LLM provider factory (`app/services/llm/provider.py`) -/

/-- The `LLMProvider` str-enum (`app/models/schemas.py`): members `claude`, `gemini`. -/
inductive LLMProvider where
  | claude
  | gemini
deriving DecidableEq, Repr

/-- `LLMProvider(value)`: str-enum lookup by value; raises `ValueError`
(modelled as `none`) for a string that is no member value. -/
def llmProviderOfString (s : String) : Option LLMProvider :=
  if s = "claude" then some .claude
  else if s = "gemini" then some .gemini
  else none

/-- The placeholder markers checked by `_is_real_key`. -/
def placeholders : List String :=
  ["your_", "sk-placeholder", "change-", "xxx", "TODO"]

/-- `_is_real_key` (`provider.py`): falsy key → not real; lowercased key
starting with a lowercased placeholder marker → not real; key equal to one
of `"", "none", "null", "undefined"` → not real; else real iff length ≥ 20. -/
def _is_real_key (key : Option String) : Bool :=
  match key with
  | none => false
  | some k =>
    if k = "" then false
    else if placeholders.any (fun p => pyStarts (pyLower k) (pyLower p)) then false
    else if ["", "none", "null", "undefined"].contains k then false
    else decide (k.length ≥ 20)

/-- The settings fields the provider factory reads (`app/core/config.py`). -/
structure Settings where
  ANTHROPIC_API_KEY : Option String
  GOOGLE_API_KEY : Option String
  DEFAULT_LLM_PROVIDER : String

/-- `ClaudeProvider.is_available` / `GeminiProvider.is_available`: the
credential heuristic applied to the respective API key. -/
def is_available (p : LLMProvider) (st : Settings) : Bool :=
  match p with
  | .claude => _is_real_key st.ANTHROPIC_API_KEY
  | .gemini => _is_real_key st.GOOGLE_API_KEY

/-- The `ValueError`s `LLMFactory.get_provider` can raise. -/
inductive ConfigError where
  | unknownProvider (s : String)
  | notConfigured (p : LLMProvider)
deriving DecidableEq, Repr

/-- `LLMFactory.get_provider`: `None` falls back to
`LLMProvider(settings.DEFAULT_LLM_PROVIDER)` (raising on an unknown value);
the `_providers` dict holds both enum members, so the membership check never
fires; an unavailable provider raises; otherwise the requested provider is
returned. -/
def get_provider (st : Settings) (provider : Option LLMProvider) :
    Except ConfigError LLMProvider :=
  match provider with
  | none =>
    match llmProviderOfString st.DEFAULT_LLM_PROVIDER with
    | none => .error (.unknownProvider st.DEFAULT_LLM_PROVIDER)
    | some p => if is_available p st then .ok p else .error (.notConfigured p)
  | some p => if is_available p st then .ok p else .error (.notConfigured p)

/-! ## Intent classification (`coaching_graph.py`, `_classify_intent`) -/

def valid_intents : List String :=
  ["hero_info", "build_recommendation", "matchup_analysis", "general_strategy", "general_chat"]

/-- The tail of `_classify_intent` applied to the raw classifier LLM output:
`intent = text.strip().lower()`, then any value outside `valid_intents`
is replaced by `"general_strategy"`. -/
def normalizeIntent (raw : String) : String :=
  let intent := pyLower (pyStrip raw)
  if valid_intents.contains intent then intent else "general_strategy"

/-! ## Retrieved documents and formatting (`app/services/rag/retriever.py`) -/

/-- A `langchain_core.documents.Document` as `format_documents` reads it:
page content plus the three metadata keys the formatter inspects. -/
structure Document where
  page_content : String
  source : Option String
  hero : Option String
  category : Option String
deriving DecidableEq, Repr

/-- The `source_info` lines collected for one document. -/
def Document.sourceInfo (d : Document) : List String :=
  (match d.source with | some s => ["Source: " ++ s] | none => []) ++
  (match d.hero with | some h => ["Hero: " ++ h] | none => []) ++
  (match d.category with | some c => ["Category: " ++ c] | none => [])

/-- One formatted entry of `format_documents` (1-based index `i`). -/
def formatDoc (i : Nat) (d : Document) : String :=
  let info := d.sourceInfo
  let header := "\n--- Document " ++ toString i ++ " ---"
  let header := if info = [] then header else header ++ "\n" ++ String.intercalate ", " info
  header ++ "\n" ++ d.page_content ++ "\n"

/-- `MLBBRetriever.format_documents`: numbered entries joined by newlines. -/
def format_documents (documents : List Document) : String :=
  String.intercalate "\n"
    ((List.range documents.length).zip documents |>.map fun p => formatDoc (p.1 + 1) p.2)

/-! ## Coaching pipeline (`app/services/langgraph/coaching_graph.py`)

The graph wires `classify_intent → retrieve_hero → retrieve_build →
retrieve_strategy → generate_response` with plain (unconditional) edges;
each retrieval node guards on the intent internally. External
collaborators are parameters: the classifier LLM output is a string, the
three `ContextRetriever.retrieve_context` calls are functions that may
raise (`Except ε`), and the synthesis LLM maps (system prompt, query) to
text. A call log records every executed `retrieve_context` invocation
with its `k`. -/

structure CoachingState where
  messages : List Msg
  user_query : String
  intent : Option String
  hero_context : Option String
  build_context : Option String
  strategy_context : Option String
  language : Option String
  response : Option String
deriving DecidableEq, Repr

inductive RetrieverKind where
  | hero
  | build
  | strategy
deriving DecidableEq, Repr

/-- The three `ContextRetriever` collaborators, each mapping
(query, k) to ranked documents or an exception. -/
structure Retrievers (ε : Type) where
  hero : String → Nat → Except ε (List Document)
  build : String → Nat → Except ε (List Document)
  strategy : String → Nat → Except ε (List Document)

/-- Lift exception-free retriever functions. -/
def Retrievers.ofPure (h b s : String → Nat → List Document) : Retrievers ε :=
  ⟨fun q k => .ok (h q k), fun q k => .ok (b q k), fun q k => .ok (s q k)⟩

/-- `_classify_intent` with the classifier LLM's raw reply `raw` supplied:
stores the normalized intent. -/
def classify_intent (raw : String) (s : CoachingState) : CoachingState :=
  { s with intent := some (normalizeIntent raw) }

/-- `_retrieve_hero_context`: retrieves with `k = 3` iff the intent is
`hero_info` or `matchup_analysis`; an exception propagates (no handler). -/
def retrieve_hero_context (r : Retrievers ε) (s : CoachingState) :
    Except ε (CoachingState × List (RetrieverKind × Nat)) :=
  if s.intent = some "hero_info" ∨ s.intent = some "matchup_analysis" then
    match r.hero s.user_query 3 with
    | .error e => .error e
    | .ok docs => .ok ({ s with hero_context := some (format_documents docs) },
        [(RetrieverKind.hero, 3)])
  else .ok (s, [])

/-- `_retrieve_build_context`: retrieves with `k = 3` iff the intent is
`build_recommendation`. -/
def retrieve_build_context (r : Retrievers ε) (s : CoachingState) :
    Except ε (CoachingState × List (RetrieverKind × Nat)) :=
  if s.intent = some "build_recommendation" then
    match r.build s.user_query 3 with
    | .error e => .error e
    | .ok docs => .ok ({ s with build_context := some (format_documents docs) },
        [(RetrieverKind.build, 3)])
  else .ok (s, [])

/-- `_retrieve_strategy_context`: retrieves with `k = 5` iff the intent is
`general_strategy` or `matchup_analysis`. -/
def retrieve_strategy_context (r : Retrievers ε) (s : CoachingState) :
    Except ε (CoachingState × List (RetrieverKind × Nat)) :=
  if s.intent = some "general_strategy" ∨ s.intent = some "matchup_analysis" then
    match r.strategy s.user_query 5 with
    | .error e => .error e
    | .ok docs => .ok ({ s with strategy_context := some (format_documents docs) },
        [(RetrieverKind.strategy, 5)])
  else .ok (s, [])

/-- The `context_parts` list of `_generate_response`: Python truthiness
(`if state.get(slot)`) keeps a block only for a set, non-empty slot; blocks
appear in hero → build → strategy order. -/
def context_parts (s : CoachingState) : List String :=
  (match s.hero_context with
   | some h => if h = "" then [] else ["Hero Information:\n" ++ h]
   | none => []) ++
  (match s.build_context with
   | some b => if b = "" then [] else ["Build Information:\n" ++ b]
   | none => []) ++
  (match s.strategy_context with
   | some c => if c = "" then [] else ["Strategy Information:\n" ++ c]
   | none => [])

/-- `context = "\n\n".join(context_parts) if context_parts else "No specific context available."` -/
def contextOf (s : CoachingState) : String :=
  let parts := context_parts s
  if parts = [] then "No specific context available."
  else String.intercalate "\n\n" parts

/-- The intent-keyed system instruction table of `_generate_response`
(`intent_prompts`), with lookup defaulting to the `general_strategy`
entry (`intent_prompts.get(state["intent"], intent_prompts["general_strategy"])`). -/
def intentPromptOf (intent : Option String) : String :=
  match intent with
  | some "hero_info" =>
    "You are an expert MLBB coach specializing in hero knowledge.\nProvide detailed, accurate information about heroes, their abilities, roles, and playstyles.\nBe specific and reference game mechanics when relevant."
  | some "build_recommendation" =>
    "You are an expert MLBB coach specializing in item builds.\nRecommend optimal item builds, emblems, and battle spells.\nExplain the reasoning behind each recommendation and when to adapt builds."
  | some "matchup_analysis" =>
    "You are an expert MLBB coach specializing in matchup analysis.\nProvide detailed counter strategies, positioning tips, and win conditions.\nBe specific about power spikes, itemization adjustments, and gameplay tactics."
  | some "general_chat" =>
    "You are a friendly MLBB coach assistant.\nRespond naturally to greetings and general conversation while staying in character."
  | _ =>
    "You are an expert MLBB coach providing strategic guidance.\nGive actionable advice on gameplay, positioning, objectives, and team coordination.\nFocus on practical tips that players can immediately apply."

/-- The language directive appended iff `language == "my"`
(`state.get("language") or "en"` compared against `"my"`). -/
def languageInstructionOf (language : Option String) : String :=
  if language = some "my" then
    "\n- IMPORTANT: You MUST respond entirely in Burmese (Myanmar language). Use Burmese script for all text. Hero names, item names, and game terms can remain in English."
  else ""

/-- The synthesis system prompt assembled by `_generate_response`: intent
instruction, then the context block, then the fixed guidelines with the
optional language directive. -/
def systemPromptOf (s : CoachingState) : String :=
  intentPromptOf s.intent ++
  "\n\nUse the following context to inform your response:\n\n" ++
  contextOf s ++
  "\n\nImportant guidelines:\n- Be concise but thorough\n- Use bullet points for lists\n- Mention specific hero names, items, and game mechanics\n- If context is insufficient, use your general MLBB knowledge\n- For Marksman (MM) role, be especially detailed\n- Always be encouraging and constructive" ++
  languageInstructionOf s.language

/-- `_generate_response` with the synthesis LLM supplied as
`llm : system prompt → user query → reply`: records the reply and appends
it to the history as an `AIMessage`. -/
def generate_response (llm : String → String → String) (s : CoachingState) :
    CoachingState :=
  let response_text := llm (systemPromptOf s) s.user_query
  { s with response := some response_text,
           messages := s.messages ++ [Msg.ai response_text] }

/-- One full run of the compiled graph on an initial state: the nodes in
edge order, accumulating the retrieval call log. -/
def runGraph (raw : String) (r : Retrievers ε) (llm : String → String → String)
    (s : CoachingState) : Except ε (CoachingState × List (RetrieverKind × Nat)) :=
  let s := classify_intent raw s
  match retrieve_hero_context r s with
  | .error e => .error e
  | .ok (s, log1) =>
    match retrieve_build_context r s with
    | .error e => .error e
    | .ok (s, log2) =>
      match retrieve_strategy_context r s with
      | .error e => .error e
      | .ok (s, log3) => .ok (generate_response llm s, log1 ++ log2 ++ log3)

/-- The dictionary `process_message` returns. -/
structure ProcessResult where
  response : Option String
  intent : Option String
  sources : List (String × Option String)
deriving DecidableEq, Repr

/-- The initial state built at the top of `MLBBCoachingGraph.process_message`:
conversation history plus the appended `HumanMessage`, every other slot unset. -/
def initialState (user_message : String) (conversation_history : List Msg)
    (language : Option String) : CoachingState :=
  { messages := conversation_history ++ [Msg.human user_message],
    user_query := user_message,
    intent := none,
    hero_context := none,
    build_context := none,
    strategy_context := none,
    language := language,
    response := none }

/-- `MLBBCoachingGraph.process_message`: runs the graph on the initial
state and returns `{response, intent, sources}` where `sources` maps each
of the three slot names to its final value. -/
def process_message (raw : String) (r : Retrievers ε) (llm : String → String → String)
    (user_message : String) (conversation_history : List Msg)
    (language : Option String) : Except ε ProcessResult :=
  match runGraph raw r llm (initialState user_message conversation_history language) with
  | .error e => .error e
  | .ok (result, _) =>
    .ok { response := result.response,
          intent := result.intent,
          sources := [("hero_context", result.hero_context),
                      ("build_context", result.build_context),
                      ("strategy_context", result.strategy_context)] }

/-! ## Chat route (`app/api/v1/chat.py`)

The route pieces that decide how a pipeline exception reaches the caller:
the provider precheck and the generic exception handler. Auth, session-id
generation and the in-memory session bookkeeping are orthogonal to the
claims and elided. -/

/-- The str-enum member value (`LLMProvider.value`). -/
def LLMProvider.value : LLMProvider → String
  | .claude => "claude"
  | .gemini => "gemini"

/-- `LLMFactory.list_available_providers`: the members of the `_providers`
dict (insertion order claude, gemini) whose credential heuristic passes. -/
def list_available_providers (st : Settings) : List LLMProvider :=
  [LLMProvider.claude, LLMProvider.gemini].filter (fun p => is_available p st)

/-- `_check_provider` (`app/api/v1/chat.py`): raises 503 when no provider
is available and 400 when the requested provider is not among the
available ones. A raised `HTTPException` is modelled as
`some (status_code, detail)`; the 400 detail elides the quote punctuation
and the trailing available-list of the f-string. -/
def _check_provider (st : Settings) (llm_provider : Option LLMProvider) :
    Option (Nat × String) :=
  let available := list_available_providers st
  if available = [] then some (503, "No LLM providers configured.")
  else
    match llm_provider with
    | some p =>
      if available.contains p then none
      else some (400, "Provider " ++ p.value ++ " not available.")
    | none => none

/-- `_suggestions` (`app/api/v1/chat.py`): fixed intent-keyed follow-up
table with a default for unmapped intents. -/
def _suggestions (intent : Option String) : List String :=
  match intent with
  | some "hero_info" => ["What items should I build?", "How do I play this matchup?"]
  | some "build_recommendation" => ["When should I build defensively?", "Best emblem?"]
  | some "matchup_analysis" => ["How do I position in team fights?", "Counter items?"]
  | some "general_strategy" => ["How do I farm efficiently?", "Team fight tips?"]
  | _ => ["Tell me about a hero", "Recommend a build"]

/-- The `ChatResponse` fields the route fills (`sources` is always
`None` in the source). -/
structure ChatResponse where
  response : Option String
  session_id : String
  sources : Option (List (String × Option String))
  suggestions : List String
deriving DecidableEq, Repr

/-- What the `chat` route hands back to the HTTP layer: a 200 response
body or a raised `HTTPException`. -/
inductive ChatOutcome where
  | response (body : ChatResponse)
  | httpError (status_code : Nat) (detail : String)
deriving DecidableEq, Repr

/-- The `chat` route (`app/api/v1/chat.py`): runs `_check_provider` first
(re-raising its `HTTPException`), then the coaching graph; any exception
escaping `process_message` is caught by the generic handler and re-raised
as `HTTPException(status_code=500, detail=str(e))`. Exceptions are
modelled as their `str(e)` text. -/
def chat (st : Settings) (request_provider : Option LLMProvider) (raw : String)
    (r : Retrievers String) (llm : String → String → String)
    (message session_id : String) (hist : List Msg) (lang : Option String) :
    ChatOutcome :=
  match _check_provider st request_provider with
  | some (code, detail) => ChatOutcome.httpError code detail
  | none =>
    match process_message raw r llm message hist lang with
    | .ok result =>
      ChatOutcome.response
        { response := result.response,
          session_id := session_id,
          sources := none,
          suggestions := _suggestions result.intent }
    | .error e => ChatOutcome.httpError 500 e

/-! ## Helper lemmas -/

/-- Deserialization after serialization keeps exactly the `HumanMessage`
and `AIMessage` entries, in order. -/
theorem deserialize_serialize_eq_filter (msgs : List Msg) :
    _deserialize_messages (_serialize_messages msgs) = msgs.filter keepMsg := by
  induction msgs with
  | nil => rfl
  | cons m rest ih =>
    cases m <;> simp [_serialize_messages, _deserialize_messages, Msg.typeName,
      Msg.content, keepMsg, List.filter] at ih ⊢ <;> simpa using ih

/-- On the in-memory fallback path, `get_session` after `save_session`
returns the truncated tail of the saved messages. -/
theorem save_then_get_memory (sm : SessionManager) (sid : String) (msgs : List Msg)
    (ttl now now2 maxH : Nat) (h : sm.use_redis = false) (hl : msgs.length > maxH) :
    get_session (save_session sm sid msgs ttl now maxH) sid now2 =
      msgs.drop (msgs.length - maxH) := by
  simp [save_session, get_session, h, truncateHistory, hl]

/-- On the Redis path, a fresh read after a save returns the truncated
tail filtered through deserialization. -/
theorem save_then_get_redis (sm : SessionManager) (sid : String) (msgs : List Msg)
    (ttl now maxH : Nat) (h : sm.use_redis = true) (hp : 0 < ttl) :
    get_session (save_session sm sid msgs ttl now maxH) sid now =
      (truncateHistory maxH msgs).filter keepMsg := by
  have hfresh : now < now + ttl * 3600 := by
    have : 0 < ttl * 3600 := Nat.mul_pos hp (by norm_num)
    omega
  simp [save_session, get_session, h, redisSetex, redisGet, hfresh]
  rw [deserialize_serialize_eq_filter]

/-- `normalizeIntent` unfolded. -/
theorem normalizeIntent_def (raw : String) : normalizeIntent raw =
    if valid_intents.contains (pyLower (pyStrip raw)) then pyLower (pyStrip raw)
    else "general_strategy" := rfl

/-- Every member of the valid-intent set is a fixed point of `normalizeIntent`. -/
theorem normalizeIntent_valid_fixed (v : String) (hv : v ∈ valid_intents) :
    normalizeIntent v = v := by
  fin_cases hv <;> decide

/-- Every member of the second blacklist of `_is_real_key` is shorter
than the length bound. -/
theorem blacklist_short (k : String)
    (h : (["", "none", "null", "undefined"] : List String).contains k = true) :
    k.length < 20 := by
  have hm := List.mem_of_elem_eq_true h
  fin_cases hm <;> decide

/-- Closed-form characterization of `_is_real_key` on a present key: real
iff the length bound holds and no case-insensitive placeholder marker is a
leading substring (emptiness and blacklist checks are subsumed). -/
theorem real_key_iff (k : String) : _is_real_key (some k) = true ↔
    (20 ≤ k.length ∧ ∀ p ∈ placeholders, pyStarts (pyLower k) (pyLower p) = false) := by
  simp only [_is_real_key]
  split_ifs with h1 h2 h3
  · subst h1; simp
  · simp only [List.any_eq_true] at h2
    obtain ⟨p, hp, hs⟩ := h2
    simp only [false_iff, not_and]
    intro _ hall
    rw [hall p hp] at hs
    cases hs
  · have hlt := blacklist_short k h3
    simp only [false_iff, not_and]
    intro h20
    omega
  · constructor
    · intro hd
      refine ⟨of_decide_eq_true hd, fun p hp => ?_⟩
      by_contra hne
      exact h2 (List.any_eq_true.mpr ⟨p, hp, by
        revert hne; cases pyStarts (pyLower k) (pyLower p) <;> simp⟩)
    · intro h
      exact decide_eq_true h.1

/-- The state reached when the classified intent is `matchup_analysis` and
both executed retrievals have returned. -/
def matchupState (s0 : CoachingState) (H S : String) : CoachingState :=
  { s0 with
    intent := some "matchup_analysis",
    hero_context := some H,
    strategy_context := some S }

/-- Retrievers whose hero retrieval raises (models a vector-store failure
propagating out of `ContextRetriever.retrieve_context`). -/
def failingRetrievers : Retrievers Unit :=
  { hero := fun _ _ => .error (),
    build := fun _ _ => .ok [],
    strategy := fun _ _ => .ok [] }

/-- A concrete request state with every slot unset. -/
def cxState : CoachingState :=
  { messages := [],
    user_query := "how do I counter Layla",
    intent := none,
    hero_context := none,
    build_context := none,
    strategy_context := none,
    language := none,
    response := none }

/-! ## Claim theorems -/

/-- C1: for every request whose classified intent is `matchup_analysis`,
the hero retrieval (k = 3) and the strategy retrieval (k = 5) both execute,
the build retrieval does not, and the synthesis prompt concatenates the
hero context block strictly before the strategy context block. -/
theorem matchup_runs_hero_then_strategy
    (rh rb rs : String → Nat → List Document) (llm : String → String → String)
    (raw : String) (s0 : CoachingState)
    (hraw : normalizeIntent raw = "matchup_analysis")
    (hb : s0.build_context = none)
    (hh : format_documents (rh s0.user_query 3) ≠ "")
    (hs : format_documents (rs s0.user_query 5) ≠ "") :
    ∃ st : CoachingState,
      runGraph raw (Retrievers.ofPure rh rb rs : Retrievers Unit) llm s0 =
        .ok (st, [(RetrieverKind.hero, 3), (RetrieverKind.strategy, 5)]) ∧
      st.hero_context = some (format_documents (rh s0.user_query 3)) ∧
      st.build_context = none ∧
      st.strategy_context = some (format_documents (rs s0.user_query 5)) ∧
      st.response = some (llm (systemPromptOf st) s0.user_query) ∧
      contextOf st =
        ("Hero Information:\n" ++ format_documents (rh s0.user_query 3)) ++ "\n\n" ++
        ("Strategy Information:\n" ++ format_documents (rs s0.user_query 5)) ∧
      ∃ pre post : String, systemPromptOf st =
        pre ++ ("Hero Information:\n" ++ format_documents (rh s0.user_query 3)) ++
        ("\n\n" ++ ("Strategy Information:\n" ++ format_documents (rs s0.user_query 5)) ++ post) := by
  refine ⟨generate_response llm (matchupState s0 (format_documents (rh s0.user_query 3))
    (format_documents (rs s0.user_query 5))), ?_, rfl, hb, rfl, rfl, ?_, ?_⟩
  · simp [runGraph, classify_intent, hraw, retrieve_hero_context, retrieve_build_context,
      retrieve_strategy_context, Retrievers.ofPure, matchupState]
  · simp only [contextOf, context_parts, generate_response, matchupState, hb]
    rw [if_neg hh, if_neg hs]
    simp [String.intercalate, String.intercalate.go]
  · refine ⟨intentPromptOf (some "matchup_analysis") ++
      "\n\nUse the following context to inform your response:\n\n",
      "\n\nImportant guidelines:\n- Be concise but thorough\n- Use bullet points for lists\n- Mention specific hero names, items, and game mechanics\n- If context is insufficient, use your general MLBB knowledge\n- For Marksman (MM) role, be especially detailed\n- Always be encouraging and constructive" ++
      languageInstructionOf s0.language, ?_⟩
    have hctx : contextOf (generate_response llm (matchupState s0
        (format_documents (rh s0.user_query 3)) (format_documents (rs s0.user_query 5)))) =
        ("Hero Information:\n" ++ format_documents (rh s0.user_query 3)) ++ "\n\n" ++
        ("Strategy Information:\n" ++ format_documents (rs s0.user_query 5)) := by
      simp only [contextOf, context_parts, generate_response, matchupState, hb]
      rw [if_neg hh, if_neg hs]
      simp [String.intercalate, String.intercalate.go]
    simp only [systemPromptOf, hctx]
    simp [String.append_assoc, generate_response, matchupState]

def rhWit : String → Nat → List Document := fun _ _ => [⟨"Layla is a marksman", some "wiki", some "Layla", none⟩]

def rbWit : String → Nat → List Document := fun _ _ => []

def rsWit : String → Nat → List Document := fun _ _ => [⟨"Group for objectives", none, none, some "macro"⟩]

def llmWit : String → String → String := fun _ q => "coached: " ++ q

/-- Witness for C1 at a concrete matchup request. -/
theorem matchup_runs_hero_then_strategy_witness :
    ∃ st : CoachingState,
      runGraph "Matchup_Analysis" (Retrievers.ofPure rhWit rbWit rsWit : Retrievers Unit)
        llmWit (initialState "how do I beat Chou" [] none) =
        .ok (st, [(RetrieverKind.hero, 3), (RetrieverKind.strategy, 5)]) ∧
      st.hero_context = some (format_documents (rhWit (initialState "how do I beat Chou" [] none).user_query 3)) ∧
      st.build_context = none ∧
      st.strategy_context = some (format_documents (rsWit (initialState "how do I beat Chou" [] none).user_query 5)) ∧
      st.response = some (llmWit (systemPromptOf st) (initialState "how do I beat Chou" [] none).user_query) ∧
      contextOf st =
        ("Hero Information:\n" ++ format_documents (rhWit (initialState "how do I beat Chou" [] none).user_query 3)) ++ "\n\n" ++
        ("Strategy Information:\n" ++ format_documents (rsWit (initialState "how do I beat Chou" [] none).user_query 5)) ∧
      ∃ pre post : String, systemPromptOf st =
        pre ++ ("Hero Information:\n" ++ format_documents (rhWit (initialState "how do I beat Chou" [] none).user_query 3)) ++
        ("\n\n" ++ ("Strategy Information:\n" ++ format_documents (rsWit (initialState "how do I beat Chou" [] none).user_query 5)) ++ post) :=
  matchup_runs_hero_then_strategy rhWit rbWit rsWit llmWit "Matchup_Analysis"
    (initialState "how do I beat Chou" [] none) (by decide) rfl (by decide) (by decide)

/-- C2 counterexample: a failing hero retrieval on a `matchup_analysis`
request makes the whole pipeline return an error — it does not continue to
response synthesis, contradicting the claim that a retrieval failure never
aborts the request. -/
theorem retrieval_failure_aborts_cx :
    runGraph "matchup_analysis" failingRetrievers (fun _ _ => "reply") cxState =
      Except.error () := by rfl

/-- C2 amended: a `ContextRetriever` failure in any retrieval stage —
hero (intents `hero_info`/`matchup_analysis`), build
(`build_recommendation`), strategy (`general_strategy`, and
`matchup_analysis` after a successful hero retrieval) — propagates out of
the pipeline unchanged: the slot is never set and synthesis does not run;
and the chat route converts any such escaped pipeline exception into
`HTTPException(status_code=500, detail=str(e))`. -/
theorem retrieval_failure_propagates :
    (∀ (ε : Type) (e : ε) (r : Retrievers ε) (llm : String → String → String)
       (raw : String) (s0 : CoachingState),
      normalizeIntent raw = "hero_info" ∨ normalizeIntent raw = "matchup_analysis" →
      r.hero s0.user_query 3 = .error e →
      runGraph raw r llm s0 = .error e) ∧
    (∀ (ε : Type) (e : ε) (r : Retrievers ε) (llm : String → String → String)
       (raw : String) (s0 : CoachingState),
      normalizeIntent raw = "build_recommendation" →
      r.build s0.user_query 3 = .error e →
      runGraph raw r llm s0 = .error e) ∧
    (∀ (ε : Type) (e : ε) (r : Retrievers ε) (llm : String → String → String)
       (raw : String) (s0 : CoachingState),
      normalizeIntent raw = "general_strategy" →
      r.strategy s0.user_query 5 = .error e →
      runGraph raw r llm s0 = .error e) ∧
    (∀ (ε : Type) (e : ε) (r : Retrievers ε) (llm : String → String → String)
       (raw : String) (s0 : CoachingState) (docs : List Document),
      normalizeIntent raw = "matchup_analysis" →
      r.hero s0.user_query 3 = .ok docs →
      r.strategy s0.user_query 5 = .error e →
      runGraph raw r llm s0 = .error e) ∧
    (∀ (st : Settings) (lp : Option LLMProvider) (e : String) (r : Retrievers String)
       (llm : String → String → String) (raw message session_id : String)
       (hist : List Msg) (lang : Option String),
      _check_provider st lp = none →
      runGraph raw r llm (initialState message hist lang) = .error e →
      chat st lp raw r llm message session_id hist lang =
        ChatOutcome.httpError 500 e) := by
  refine ⟨fun ε e r llm raw s0 hint herr => ?_, fun ε e r llm raw s0 h herr => ?_,
    fun ε e r llm raw s0 h herr => ?_, fun ε e r llm raw s0 docs h hok herr => ?_,
    fun st lp e r llm raw message session_id hist lang hchk hrun => ?_⟩
  · rcases hint with h | h <;>
      simp [runGraph, classify_intent, h, retrieve_hero_context, herr]
  · simp [runGraph, classify_intent, h, retrieve_hero_context, retrieve_build_context, herr]
  · simp [runGraph, classify_intent, h, retrieve_hero_context, retrieve_build_context,
      retrieve_strategy_context, herr]
  · simp [runGraph, classify_intent, h, retrieve_hero_context, retrieve_build_context,
      retrieve_strategy_context, hok, herr]
  · simp [chat, hchk, process_message, hrun]

/-- Retrievers whose build retrieval raises. -/
def failingBuild : Retrievers Unit :=
  { hero := fun _ _ => .ok [],
    build := fun _ _ => .error (),
    strategy := fun _ _ => .ok [] }

/-- Retrievers whose strategy retrieval raises. -/
def failingStrategy : Retrievers Unit :=
  { hero := fun _ _ => .ok [],
    build := fun _ _ => .ok [],
    strategy := fun _ _ => .error () }

/-- Retrievers whose hero retrieval raises a string-message exception. -/
def failingRetrieversS : Retrievers String :=
  { hero := fun _ _ => .error "vector store down",
    build := fun _ _ => .ok [],
    strategy := fun _ _ => .ok [] }

/-- Settings with a real Anthropic key, no Google key, default `claude`. -/
def chatSettings : Settings :=
  ⟨some "abcdefghij0123456789ABCDEFGHIJ9876543210", none, "claude"⟩

/-- Witness for C2: one concrete failing request per retrieval stage, and
the 500 surfacing at the chat route. -/
theorem retrieval_failure_propagates_witness :
    runGraph "hero_info" failingRetrievers (fun _ _ => "reply") cxState =
      Except.error () ∧
    runGraph "build_recommendation" failingBuild (fun _ _ => "reply") cxState =
      Except.error () ∧
    runGraph "general_strategy" failingStrategy (fun _ _ => "reply") cxState =
      Except.error () ∧
    runGraph "matchup_analysis" failingStrategy (fun _ _ => "reply") cxState =
      Except.error () ∧
    chat chatSettings none "hero_info" failingRetrieversS (fun _ _ => "reply")
      "tell me about Layla" "sid-1" [] none =
      ChatOutcome.httpError 500 "vector store down" :=
  ⟨retrieval_failure_propagates.1 Unit () failingRetrievers (fun _ _ => "reply")
     "hero_info" cxState (Or.inl (by decide)) rfl,
   retrieval_failure_propagates.2.1 Unit () failingBuild (fun _ _ => "reply")
     "build_recommendation" cxState (by decide) rfl,
   retrieval_failure_propagates.2.2.1 Unit () failingStrategy (fun _ _ => "reply")
     "general_strategy" cxState (by decide) rfl,
   retrieval_failure_propagates.2.2.2.1 Unit () failingStrategy (fun _ _ => "reply")
     "matchup_analysis" cxState [] (by decide) rfl rfl,
   retrieval_failure_propagates.2.2.2.2 chatSettings none "vector store down"
     failingRetrieversS (fun _ _ => "reply") "hero_info" "tell me about Layla"
     "sid-1" [] none (by decide) rfl⟩

/-- C3: for every request whose classified intent is `general_chat`, no
retrieval call is made (the call log is empty) and all three context slots
are still unset when response synthesis runs. -/
theorem general_chat_skips_retrieval {ε : Type} (r : Retrievers ε)
    (llm : String → String → String) (raw user : String) (hist : List Msg)
    (lang : Option String) (hraw : normalizeIntent raw = "general_chat") :
    ∃ st : CoachingState,
      runGraph raw r llm (initialState user hist lang) = .ok (st, []) ∧
      st.hero_context = none ∧ st.build_context = none ∧ st.strategy_context = none := by
  refine ⟨generate_response llm (classify_intent raw (initialState user hist lang)),
    ?_, rfl, rfl, rfl⟩
  simp [runGraph, classify_intent, hraw, retrieve_hero_context, retrieve_build_context,
    retrieve_strategy_context, initialState]

/-- Witness for C3 at a concrete greeting. -/
theorem general_chat_skips_retrieval_witness :
    ∃ st : CoachingState,
      runGraph "general_chat" failingRetrievers (fun _ _ => "hello") (initialState "hi" [] none) =
        .ok (st, []) ∧
      st.hero_context = none ∧ st.build_context = none ∧ st.strategy_context = none :=
  general_chat_skips_retrieval failingRetrievers (fun _ _ => "hello") "general_chat"
    "hi" [] none (by decide)

/-- C4 counterexample: the raw classifier output `"HERO_INFO"` is outside
the five-member intent set, yet it resolves to `"hero_info"`, not to
`"general_strategy"` — normalization lowercases and strips before the
membership test. -/
theorem intent_normalization_cx :
    valid_intents.contains "HERO_INFO" = false ∧
    normalizeIntent "HERO_INFO" = "hero_info" ∧
    normalizeIntent "HERO_INFO" ≠ "general_strategy" := by decide

/-- C4 amended: every classifier output whose stripped, lowercased form is
outside the five-member intent set resolves to `general_strategy`, and
normalization is idempotent. -/
theorem intent_normalization_default_and_idempotent (raw : String) :
    (valid_intents.contains (pyLower (pyStrip raw)) = false →
      normalizeIntent raw = "general_strategy") ∧
    normalizeIntent (normalizeIntent raw) = normalizeIntent raw := by
  constructor
  · intro h
    rw [normalizeIntent_def, if_neg (by rw [h]; exact Bool.false_ne_true)]
  · by_cases h : valid_intents.contains (pyLower (pyStrip raw)) = true
    · have hv : normalizeIntent raw = pyLower (pyStrip raw) := by
        rw [normalizeIntent_def, if_pos h]
      rw [hv, normalizeIntent_valid_fixed _ (List.mem_of_elem_eq_true h)]
    · have hv : normalizeIntent raw = "general_strategy" := by
        rw [normalizeIntent_def, if_neg h]
      rw [hv]; decide

/-- Witness for C4 at the out-of-set output `"banana"`. -/
theorem intent_normalization_witness :
    normalizeIntent "banana" = "general_strategy" ∧
    normalizeIntent (normalizeIntent "banana") = normalizeIntent "banana" :=
  ⟨(intent_normalization_default_and_idempotent "banana").1 (by decide),
   (intent_normalization_default_and_idempotent "banana").2⟩

/-- A session manager whose Redis backend is in use, with empty stores. -/
def smRedis : SessionManager := ⟨true, RedisStore.empty, fun _ => none⟩

/-- Eleven messages whose most recent ten include a `SystemMessage`. -/
def elevenMsgs : List Msg :=
  [Msg.human "m0", Msg.human "m1", Msg.ai "m2", Msg.human "m3", Msg.ai "m4",
   Msg.system "m5", Msg.human "m6", Msg.ai "m7", Msg.human "m8", Msg.ai "m9",
   Msg.ai "m10"]

/-- C5 counterexample: on the Redis backend, saving eleven messages whose
most recent ten include a `SystemMessage` and loading back returns only
nine messages — not the most recent ten — because deserialization drops
the system message. -/
theorem save_load_truncation_cx :
    elevenMsgs.length = 11 ∧ MAX_CONVERSATION_HISTORY = 10 ∧
    get_session (save_session smRedis "s" elevenMsgs 24 0 MAX_CONVERSATION_HISTORY) "s" 0 ≠
      elevenMsgs.drop 1 ∧
    get_session (save_session smRedis "s" elevenMsgs 24 0 MAX_CONVERSATION_HISTORY) "s" 0 =
      (elevenMsgs.drop 1).filter keepMsg := by decide

/-- C5 amended: for every sequence longer than the bound N, load after save
returns exactly the most recent N in original relative order — on the
in-memory backend unconditionally, and on the Redis backend provided the
messages are `HumanMessage`/`AIMessage` (other classes are dropped by
deserialization) and the read happens before expiry. -/
theorem save_load_returns_most_recent :
    (∀ (sm : SessionManager) (sid : String) (msgs : List Msg) (ttl now now2 maxH : Nat),
      sm.use_redis = false → msgs.length > maxH →
      get_session (save_session sm sid msgs ttl now maxH) sid now2 =
        msgs.drop (msgs.length - maxH)) ∧
    (∀ (sm : SessionManager) (sid : String) (msgs : List Msg) (ttl now now2 maxH : Nat),
      sm.use_redis = true → msgs.length > maxH → (∀ m ∈ msgs, keepMsg m = true) →
      now2 < now + ttl * 3600 →
      get_session (save_session sm sid msgs ttl now maxH) sid now2 =
        msgs.drop (msgs.length - maxH)) := by
  constructor
  · exact fun sm sid msgs ttl now now2 maxH h hl => save_then_get_memory sm sid msgs ttl now now2 maxH h hl
  · intro sm sid msgs ttl now now2 maxH h hl hk hfresh
    simp [save_session, get_session, h, truncateHistory, hl, redisSetex, redisGet, hfresh]
    rw [deserialize_serialize_eq_filter]
    exact List.filter_eq_self.mpr (fun m hm => hk m (List.mem_of_mem_drop hm))

/-- Eleven messages, all of them `HumanMessage`/`AIMessage`. -/
def chatMsgs : List Msg :=
  [Msg.human "c0", Msg.ai "c1", Msg.human "c2", Msg.ai "c3", Msg.human "c4",
   Msg.ai "c5", Msg.human "c6", Msg.ai "c7", Msg.human "c8", Msg.ai "c9",
   Msg.ai "c10"]

/-- Witness for C5: eleven chat messages, bound 10, both backends. -/
theorem save_load_returns_most_recent_witness :
    get_session (save_session ⟨false, RedisStore.empty, fun _ => none⟩ "s"
      chatMsgs 24 0 10) "s" 0 = chatMsgs.drop 1 ∧
    get_session (save_session smRedis "s" chatMsgs 24 0 10) "s" 0 = chatMsgs.drop 1 :=
  by
  constructor
  · have h := save_load_returns_most_recent.1 ⟨false, RedisStore.empty, fun _ => none⟩ "s"
      chatMsgs 24 0 0 10 rfl (by decide)
    rw [show chatMsgs.length - 10 = 1 from by decide] at h
    exact h
  · have h := save_load_returns_most_recent.2 smRedis "s"
      chatMsgs 24 0 0 10 rfl (by decide) (by decide) (by decide)
    rw [show chatMsgs.length - 10 = 1 from by decide] at h
    exact h

/-- C6: the default TTL is 24 hours, and a session in the Redis backend not
written to for longer than its TTL behaves as unknown — a later load
returns the empty sequence (the whole session is gone). -/
theorem session_ttl_expiry :
    DEFAULT_TTL_HOURS = 24 ∧
    ∀ (sm : SessionManager) (sid : String) (msgs : List Msg) (ttl wr rd maxH : Nat),
      sm.use_redis = true → sm.memory sid = none → wr + ttl * 3600 ≤ rd →
      get_session (save_session sm sid msgs ttl wr maxH) sid rd = [] := by
  refine ⟨rfl, fun sm sid msgs ttl wr rd maxH h hmem hexp => ?_⟩
  simp [save_session, get_session, h, redisSetex, redisGet, Nat.not_lt.mpr hexp, hmem]

/-- Witness for C6: a save at time 0 with the default 24-hour TTL read one
second after expiry. -/
theorem session_ttl_expiry_witness :
    get_session (save_session smRedis "s" elevenMsgs DEFAULT_TTL_HOURS 0 10) "s" 86401 = [] :=
  session_ttl_expiry.2 smRedis "s" elevenMsgs DEFAULT_TTL_HOURS 0 86401 10 rfl rfl (by decide)

/-- C7 counterexample: a 40-character alphanumeric key beginning with
`"xxx"` is classified not-available, so not every 40-character
alphanumeric string is available; and a key meeting every condition of
the claim read case-sensitively (non-empty, length ≥ 20, no listed
placeholder marker is a literal leading substring, not blacklisted) is
still classified not-available, because the code matches markers
case-insensitively. -/
theorem credential_heuristic_cx :
    (("xxxaaaaaaaaaaaaaaaaaaaaaaaaaaaaaaaaaaaaa" : String).length = 40 ∧
     ("xxxaaaaaaaaaaaaaaaaaaaaaaaaaaaaaaaaaaaaa" : String).data.all Char.isAlphanum = true ∧
     _is_real_key (some "xxxaaaaaaaaaaaaaaaaaaaaaaaaaaaaaaaaaaaaa") = false) ∧
    (("Your_aaaaaaaaaaaaaaaaaaa" : String) ≠ "" ∧
     20 ≤ ("Your_aaaaaaaaaaaaaaaaaaa" : String).length ∧
     placeholders.all (fun p => !pyStarts "Your_aaaaaaaaaaaaaaaaaaa" p) = true ∧
     (["", "none", "null", "undefined"] : List String).contains "Your_aaaaaaaaaaaaaaaaaaa" = false ∧
     _is_real_key (some "Your_aaaaaaaaaaaaaaaaaaa") = false) := by decide

/-- C7 amended: a key is real iff it is at least 20 characters long and its
lowercased form does not start with any lowercased placeholder marker (the
emptiness and literal-blacklist checks are subsumed by the length bound);
`"your_api_key_here"` and `""` are not available, and every 40-character
alphanumeric string not case-insensitively starting with a placeholder
marker is available. -/
theorem credential_heuristic_characterization :
    (∀ k : String, _is_real_key (some k) = true ↔
      (20 ≤ k.length ∧ ∀ p ∈ placeholders, pyStarts (pyLower k) (pyLower p) = false)) ∧
    _is_real_key (some "your_api_key_here") = false ∧
    _is_real_key (some "") = false ∧
    (∀ k : String, k.length = 40 → k.data.all Char.isAlphanum = true →
      (∀ p ∈ placeholders, pyStarts (pyLower k) (pyLower p) = false) →
      _is_real_key (some k) = true) :=
  ⟨real_key_iff, by decide, by decide,
   fun k h40 _ hall => (real_key_iff k).mpr ⟨by omega, hall⟩⟩

/-- Witness for C7: a concrete 40-character alphanumeric key is available. -/
theorem credential_heuristic_witness :
    _is_real_key (some "abcdefghij0123456789ABCDEFGHIJ9876543210") = true :=
  credential_heuristic_characterization.2.2.2
    "abcdefghij0123456789ABCDEFGHIJ9876543210" (by decide) (by decide)
    (by decide)

/-- C8: provider resolution with no identifier falls back to the configured
default; an unknown default identifier fails with a configuration error; a
known identifier whose provider is unavailable fails with a configuration
error; and a successful resolution always returns exactly the requested
provider (no substitution). -/
theorem provider_resolution :
    (∀ (st : Settings) (p : LLMProvider),
      llmProviderOfString st.DEFAULT_LLM_PROVIDER = some p →
      get_provider st none = get_provider st (some p)) ∧
    (∀ st : Settings, llmProviderOfString st.DEFAULT_LLM_PROVIDER = none →
      get_provider st none = .error (.unknownProvider st.DEFAULT_LLM_PROVIDER)) ∧
    (∀ (st : Settings) (p : LLMProvider), is_available p st = false →
      get_provider st (some p) = .error (.notConfigured p)) ∧
    (∀ (st : Settings) (p q : LLMProvider), get_provider st (some p) = .ok q → q = p) := by
  refine ⟨fun st p h => ?_, fun st h => ?_, fun st p h => ?_, fun st p q h => ?_⟩
  · simp [get_provider, h]
  · simp [get_provider, h]
  · simp [get_provider, h]
  · simp only [get_provider] at h
    split_ifs at h with ha
    injection h with h2
    exact h2.symm

/-- Settings with a real Anthropic key, no Google key, default `claude`. -/
def stWit : Settings := ⟨some "abcdefghij0123456789ABCDEFGHIJ9876543210", none, "claude"⟩

/-- Witness for C8: with the default `claude` configured and available,
no-identifier resolution yields claude; requesting the unconfigured gemini
yields a configuration error. -/
theorem provider_resolution_witness :
    get_provider stWit none = Except.ok LLMProvider.claude ∧
    get_provider stWit (some LLMProvider.gemini) =
      Except.error (ConfigError.notConfigured LLMProvider.gemini) := by
  constructor
  · rw [provider_resolution.1 stWit LLMProvider.claude (by decide)]
    rfl
  · exact provider_resolution.2.2.1 stWit LLMProvider.gemini (by decide)

/-- Retrievers that always return no documents. -/
def emptyRetrievers : Retrievers Unit :=
  Retrievers.ofPure (fun _ _ => []) (fun _ _ => []) (fun _ _ => [])

/-- C9 counterexample: a `general_chat` request sets no context slot, yet
the returned sources mapping still contains all three slot keys, each
present with a null value — unset slots are not omitted. -/
theorem sources_map_cx :
    process_message "general_chat" emptyRetrievers (fun _ _ => "hello there") "hi" [] none =
      .ok ⟨some "hello there", some "general_chat",
        [("hero_context", none), ("build_context", none), ("strategy_context", none)]⟩ := by
  rfl

/-- C9 amended: for every completed request, the returned sources mapping
contains exactly the three slot keys in fixed order, each bound to its
final slot value — a slot never set appears with a null value rather than
being omitted. -/
theorem sources_map_always_three_keys {ε : Type} (r : Retrievers ε)
    (llm : String → String → String) (raw user : String) (hist : List Msg)
    (lang : Option String) (st : CoachingState) (log : List (RetrieverKind × Nat))
    (h : runGraph raw r llm (initialState user hist lang) = .ok (st, log)) :
    process_message raw r llm user hist lang =
      .ok ⟨st.response, st.intent,
        [("hero_context", st.hero_context), ("build_context", st.build_context),
         ("strategy_context", st.strategy_context)]⟩ := by
  simp [process_message, h]

/-- Witness for C9 at a concrete `hero_info` request. -/
theorem sources_map_always_three_keys_witness :
    process_message "hero_info" emptyRetrievers (fun _ _ => "about Layla") "tell me about Layla" [] none =
      .ok ⟨(generate_response (fun _ _ => "about Layla")
              { initialState "tell me about Layla" [] none with
                intent := some "hero_info",
                hero_context := some (format_documents []) }).response,
           (generate_response (fun _ _ => "about Layla")
              { initialState "tell me about Layla" [] none with
                intent := some "hero_info",
                hero_context := some (format_documents []) }).intent,
        [("hero_context", (generate_response (fun _ _ => "about Layla")
              { initialState "tell me about Layla" [] none with
                intent := some "hero_info",
                hero_context := some (format_documents []) }).hero_context),
         ("build_context", (generate_response (fun _ _ => "about Layla")
              { initialState "tell me about Layla" [] none with
                intent := some "hero_info",
                hero_context := some (format_documents []) }).build_context),
         ("strategy_context", (generate_response (fun _ _ => "about Layla")
              { initialState "tell me about Layla" [] none with
                intent := some "hero_info",
                hero_context := some (format_documents []) }).strategy_context)]⟩ :=
  sources_map_always_three_keys emptyRetrievers (fun _ _ => "about Layla")
    "hero_info" "tell me about Layla" [] none
    (generate_response (fun _ _ => "about Layla")
      { initialState "tell me about Layla" [] none with
        intent := some "hero_info",
        hero_context := some (format_documents []) })
    [(RetrieverKind.hero, 3)] rfl

/-- C10: deserializing the serialization of any message list preserves the
order and content of all `HumanMessage` and `AIMessage` entries and
silently drops every message of any other type; consequently a session
saved through the Redis backend loses all system-role messages on load. -/
theorem serialization_roundtrip_filters :
    (∀ msgs : List Msg,
      _deserialize_messages (_serialize_messages msgs) = msgs.filter keepMsg) ∧
    (∀ msgs : List Msg, ∀ m ∈ _deserialize_messages (_serialize_messages msgs),
      keepMsg m = true) ∧
    (∀ (sm : SessionManager) (sid : String) (msgs : List Msg) (ttl now maxH : Nat),
      sm.use_redis = true → 0 < ttl →
      get_session (save_session sm sid msgs ttl now maxH) sid now =
        (truncateHistory maxH msgs).filter keepMsg) := by
  refine ⟨deserialize_serialize_eq_filter, fun msgs m hm => ?_,
    fun sm sid msgs ttl now maxH h hp => save_then_get_redis sm sid msgs ttl now maxH h hp⟩
  rw [deserialize_serialize_eq_filter] at hm
  exact List.of_mem_filter hm

/-- Witness for C10: saving a history containing a `SystemMessage` through
the Redis backend and loading it back returns only the chat messages. -/
theorem serialization_roundtrip_filters_witness :
    _deserialize_messages (_serialize_messages
      [Msg.system "be helpful", Msg.human "hi", Msg.ai "hello"]) =
      [Msg.human "hi", Msg.ai "hello"] ∧
    get_session (save_session smRedis "s"
      [Msg.system "be helpful", Msg.human "hi", Msg.ai "hello"] 24 0 10) "s" 0 =
      [Msg.human "hi", Msg.ai "hello"] := by
  constructor
  · rw [serialization_roundtrip_filters.1
      [Msg.system "be helpful", Msg.human "hi", Msg.ai "hello"]]
    decide
  · rw [serialization_roundtrip_filters.2.2 smRedis "s"
      [Msg.system "be helpful", Msg.human "hi", Msg.ai "hello"] 24 0 10 rfl (by decide)]
    decide

end MLBB
